import Mathlib

/-
Verification of the point-light scene node (Source/Engine/Level/Actors/PointLight.h)
against its natural-language specification.

The repository provides the class declaration (fields with defaults and
editor-limit attributes, method signatures). The bodies of the out-of-line
member functions (ComputeBrightness, GetScaledRadius, SetRadius, UpdateBounds,
Serialize, Deserialize, IntersectsItself, OnTransformChanged) live in the
corresponding implementation file, which is not part of the provided sources;
those operations are modelled from the specification text, as marked on each
definition. Floating-point values are embedded as rationals (ℚ), so equalities
stated here are exact and imply the spec's within-tolerance equalities.
-/

set_option autoImplicit false

namespace Flax

/-- Three-component vector (engine type Float3 / Vector3). -/
structure Float3 where
  x : ℚ
  y : ℚ
  z : ℚ
deriving DecidableEq

/-- Rotation stored as a quaternion, as in the engine transform. -/
structure Quat where
  x : ℚ
  y : ℚ
  z : ℚ
  w : ℚ
deriving DecidableEq

/-- World transform of an actor: translation, orientation and per-axis scale. -/
structure Transform3D where
  Translation : Float3
  Orientation : Quat
  Scale : Float3
deriving DecidableEq

/-- Bounding sphere (center and radius), engine type BoundingSphere. -/
structure BoundingSphere where
  center : Float3
  radius : ℚ
deriving DecidableEq

/-- Axis-aligned bounding box, engine type BoundingBox. -/
structure BoundingBox where
  minimum : Float3
  maximum : Float3
deriving DecidableEq

/-- IES photometric profile asset: an angular attenuation table that also
provides an absolute brightness multiplier (spec section 2: "optionally
providing an absolute brightness multiplier"). Only the brightness value is
relevant to the claims. -/
structure IESProfile where
  brightness : ℚ
deriving DecidableEq

/-- Ray used for editor picking (engine type Ray: origin position and
direction). -/
structure Ray where
  position : Float3
  direction : Float3
deriving DecidableEq

/-- Componentwise difference of two vectors. -/
def Float3.sub (a b : Float3) : Float3 :=
  ⟨a.x - b.x, a.y - b.y, a.z - b.z⟩

/-- Dot product. -/
def Float3.dot (a b : Float3) : ℚ :=
  a.x * b.x + a.y * b.y + a.z * b.z

/-- Cross product. -/
def Float3.cross (a b : Float3) : Float3 :=
  ⟨a.y * b.z - a.z * b.y, a.z * b.x - a.x * b.z, a.x * b.y - a.y * b.x⟩

/-- Largest component of a vector (engine Vector3::MaxValue), used as the
representative scalar extracted from a possibly non-uniform scale. -/
def Float3.maxValue (v : Float3) : ℚ :=
  max v.x (max v.y v.z)

/-- The engine's forward unit axis (0, 0, 1). -/
def Float3.forward : Float3 :=
  ⟨0, 0, 1⟩

/-- Rotation of a vector by a quaternion q: v + 2w(u × v) + 2u × (u × v)
with u the vector part of q. -/
def Quat.rotate (q : Quat) (v : Float3) : Float3 :=
  let u : Float3 := ⟨q.x, q.y, q.z⟩
  let t : Float3 := u.cross v
  let s : Float3 := u.cross t
  ⟨v.x + 2 * q.w * t.x + 2 * s.x,
   v.y + 2 * q.w * t.y + 2 * s.y,
   v.z + 2 * q.w * t.z + 2 * s.z⟩

/-- Axis-aligned box enclosing a sphere (engine BoundingBox::FromSphere). -/
def BoundingBox.fromSphere (s : BoundingSphere) : BoundingBox :=
  ⟨⟨s.center.x - s.radius, s.center.y - s.radius, s.center.z - s.radius⟩,
   ⟨s.center.x + s.radius, s.center.y + s.radius, s.center.z + s.radius⟩⟩

/-- State of a PointLight node. Private fields `_direction` and `_radius` and
the public API fields are taken directly from PointLight.h; `Brightness`,
`Color` and `CastShadows` stand for the fields inherited from the light base
classes (spec section 3: color, intensity/brightness base value, shadow
settings); `_transform` is the actor's world transform and `_sphere`/`_box`
the cached world bounds maintained by UpdateBounds. -/
structure PointLight where
  _direction : Float3
  _radius : ℚ
  SourceRadius : ℚ
  SourceLength : ℚ
  UseInverseSquaredFalloff : Bool
  FallOffExponent : ℚ
  IESTexture : Option IESProfile
  UseIESBrightness : Bool
  IESBrightnessScale : ℚ
  Brightness : ℚ
  Color : Float3
  CastShadows : Bool
  _transform : Transform3D
  _sphere : BoundingSphere
  _box : BoundingBox
deriving DecidableEq

/-- World position of the actor (Actor::GetPosition): the transform
translation. -/
def GetPosition (l : PointLight) : Float3 :=
  l._transform.Translation

/-- Gets light radius (PointLight::GetRadius, PointLight.h lines 77-81):
returns the stored local radius field. -/
def GetRadius (l : PointLight) : ℚ :=
  l._radius

/-- Modelled from the spec: the body of PointLight::GetScaledRadius is in the
implementation file, absent from the sources. Spec section 4.1: "Must equal
`radius * worldScale` where `worldScale` is derived from the transform
(non-uniform scale handling: use a representative scalar, e.g. max or average
axis scale)". The representative scalar chosen here, applied consistently, is
the maximum axis scale. -/
def GetScaledRadius (l : PointLight) : ℚ :=
  l._radius * l._transform.Scale.maxValue

/-- The geometric envelope of the light: a sphere of radius GetScaledRadius
centered at the node's world position (spec section 3, worldBounds
invariant). -/
def boundsOf (l : PointLight) : BoundingSphere :=
  ⟨GetPosition l, GetScaledRadius l⟩

/-- Modelled from the spec: the body of PointLight::UpdateBounds is in the
implementation file, absent from the sources. Recomputes the cached world
bounds as the envelope of a sphere of radius GetScaledRadius centered at the
world position (spec sections 3 and 4.3). -/
def UpdateBounds (l : PointLight) : PointLight :=
  let sphere := boundsOf l
  { l with _sphere := sphere, _box := BoundingBox.fromSphere sphere }

/-- Modelled from the spec: the body of PointLight::SetRadius is in the
implementation file, absent from the sources. Spec section 4.3: "SetRadius
(value): validates `value ≥ 0`, stores it, immediately recomputes bounds";
spec section 7: invalid numeric input is clamped to the nearest valid value,
so a negative radius is stored as 0. -/
def SetRadius (l : PointLight) (value : ℚ) : PointLight :=
  UpdateBounds { l with _radius := max 0 value }

/-- Modelled from the spec: the body of PointLight::ComputeBrightness is in
the implementation file, absent from the sources. Spec section 4.1: start
from the base light's configured brightness; if useIESBrightness is true and
a profile is bound, replace the base brightness with the profile's absolute
brightness multiplier scaled by iesBrightnessScale; if no profile is bound
the IES path is skipped silently. Pure function of the state, no side
effects. -/
def ComputeBrightness (l : PointLight) : ℚ :=
  match l.IESTexture with
  | none => l.Brightness
  | some profile =>
    if l.UseIESBrightness then profile.brightness * l.IESBrightnessScale
    else l.Brightness

/-- Modelled from the spec: the body of PointLight::OnTransformChanged is in
the implementation file, absent from the sources. Spec section 4.3: invoked
by the scene graph whenever the world transform changes; recomputes
`direction` from the new orientation (the forward axis of the world
transform, spec section 3) and recomputes bounds. -/
def OnTransformChanged (l : PointLight) (t : Transform3D) : PointLight :=
  UpdateBounds { l with
    _transform := t
    _direction := t.Orientation.rotate Float3.forward }

/-- Direct write to the public field FallOffExponent (PointLight.h lines
39-43). The field is declared API_FIELD with the editor attribute
`Limit(2, 16, 0.01f)` and the class declares no member function that sets it
(unlike Radius, which has SetRadius), so an assignment stores the given value
unchanged. -/
def setFallOffExponent (l : PointLight) (value : ℚ) : PointLight :=
  { l with FallOffExponent := value }

/-- The serialized field set (spec section 6): radius, sourceRadius,
sourceLength, useInverseSquaredFalloff, fallOffExponent, the IES profile
reference, useIESBrightness, iesBrightnessScale, plus the inherited
base fields (color, intensity/brightness, shadow config) and the actor's
transform serialized by the actor base. Every field is optional on read. -/
structure SerializedData where
  transform : Option Transform3D
  color : Option Float3
  brightness : Option ℚ
  castShadows : Option Bool
  radius : Option ℚ
  sourceRadius : Option ℚ
  sourceLength : Option ℚ
  useInverseSquaredFalloff : Option Bool
  fallOffExponent : Option ℚ
  iesTexture : Option (Option IESProfile)
  useIESBrightness : Option Bool
  iesBrightnessScale : Option ℚ
deriving DecidableEq

/-- Stream with no fields present (the empty delta). -/
def emptySerializedData : SerializedData :=
  ⟨none, none, none, none, none, none, none, none, none, none, none, none⟩

/-- Diff-serialization of one field (spec section 4.5): with no baseline the
current value is always written; with a baseline the value is written only
when it differs from the baseline's corresponding field. -/
def writeField {α : Type} [DecidableEq α] (cur : α) : Option α → Option α
  | none => some cur
  | some base => if cur = base then none else some cur

/-- Modelled from the spec: the body of PointLight::Serialize is in the
implementation file, absent from the sources. Spec section 4.5: writes every
user-facing field plus inherited base fields; when a diff baseline is
supplied, only fields whose current value differs from the baseline's
corresponding field are written. -/
def Serialize (l : PointLight) (other : Option PointLight) : SerializedData where
  transform := writeField l._transform (other.map (fun o => o._transform))
  color := writeField l.Color (other.map (fun o => o.Color))
  brightness := writeField l.Brightness (other.map (fun o => o.Brightness))
  castShadows := writeField l.CastShadows (other.map (fun o => o.CastShadows))
  radius := writeField l._radius (other.map (fun o => o._radius))
  sourceRadius := writeField l.SourceRadius (other.map (fun o => o.SourceRadius))
  sourceLength := writeField l.SourceLength (other.map (fun o => o.SourceLength))
  useInverseSquaredFalloff :=
    writeField l.UseInverseSquaredFalloff (other.map (fun o => o.UseInverseSquaredFalloff))
  fallOffExponent := writeField l.FallOffExponent (other.map (fun o => o.FallOffExponent))
  iesTexture := writeField l.IESTexture (other.map (fun o => o.IESTexture))
  useIESBrightness := writeField l.UseIESBrightness (other.map (fun o => o.UseIESBrightness))
  iesBrightnessScale := writeField l.IESBrightnessScale (other.map (fun o => o.IESBrightnessScale))

/-- Modelled from the spec: the body of PointLight::Deserialize is in the
implementation file, absent from the sources. Spec section 4.5: reads back
the same field set, tolerating absence of any individual field (falling back
to the pre-existing value), then performs one bounds recomputation after all
fields are loaded. -/
def Deserialize (l : PointLight) (d : SerializedData) : PointLight :=
  UpdateBounds { l with
    _transform := d.transform.getD l._transform
    Color := d.color.getD l.Color
    Brightness := d.brightness.getD l.Brightness
    CastShadows := d.castShadows.getD l.CastShadows
    _radius := d.radius.getD l._radius
    SourceRadius := d.sourceRadius.getD l.SourceRadius
    SourceLength := d.sourceLength.getD l.SourceLength
    UseInverseSquaredFalloff := d.useInverseSquaredFalloff.getD l.UseInverseSquaredFalloff
    FallOffExponent := d.fallOffExponent.getD l.FallOffExponent
    IESTexture := d.iesTexture.getD l.IESTexture
    UseIESBrightness := d.useIESBrightness.getD l.UseIESBrightness
    IESBrightnessScale := d.iesBrightnessScale.getD l.IESBrightnessScale }

/-- Ray-sphere intersection test (engine CollisionsHelper::RayIntersectsSphere
shape): with m the vector from the sphere center to the ray origin, miss when
the origin is outside the sphere and the ray points away, or when the
discriminant is negative; hit otherwise. -/
def rayIntersectsSphere (ray : Ray) (sphere : BoundingSphere) : Bool :=
  let m := ray.position.sub sphere.center
  let b := m.dot ray.direction
  let c := m.dot m - sphere.radius * sphere.radius
  if 0 < c ∧ 0 < b then false
  else if b * b - c < 0 then false
  else true

/-- Modelled from the spec: the body of PointLight::IntersectsItself is in the
implementation file, absent from the sources. Spec section 4.6: tests the ray
against the light's influence sphere sized by GetScaledRadius, centered at
the world position, consistent with the bounds; spec section 7: against
degenerate geometry (radius 0) it reports no intersection, so the sphere test
runs only for a positive scaled radius. -/
def IntersectsItself (l : PointLight) (ray : Ray) : Bool :=
  if GetScaledRadius l ≤ 0 then false
  else rayIntersectsSphere ray (boundsOf l)

/-- The worldBounds invariant (spec section 3): the cached sphere and box
always equal the geometric envelope of a sphere of radius GetScaledRadius
centered at the node's world position. -/
def BoundsValid (l : PointLight) : Prop :=
  l._sphere = boundsOf l ∧ l._box = BoundingBox.fromSphere (boundsOf l)

instance (l : PointLight) : Decidable (BoundsValid l) := by
  unfold BoundsValid
  infer_instance

/-- Identity transform at the origin with uniform scale 1. -/
def exampleTransform : Transform3D :=
  ⟨⟨0, 0, 0⟩, ⟨0, 0, 0, 1⟩, ⟨1, 1, 1⟩⟩

/-- A concrete node state used to instantiate the universally quantified
theorems: default field values from PointLight.h (radius 1000, sourceRadius 0,
sourceLength 0, inverse-squared falloff off, fallOffExponent 8, no IES
profile, brightness scale 1), identity transform, consistent bounds. -/
def examplePointLight : PointLight where
  _direction := ⟨0, 0, 1⟩
  _radius := 1000
  SourceRadius := 0
  SourceLength := 0
  UseInverseSquaredFalloff := false
  FallOffExponent := 8
  IESTexture := none
  UseIESBrightness := false
  IESBrightnessScale := 1
  Brightness := 10
  Color := ⟨1, 1, 1⟩
  CastShadows := true
  _transform := exampleTransform
  _sphere := ⟨⟨0, 0, 0⟩, 1000⟩
  _box := ⟨⟨-1000, -1000, -1000⟩, ⟨1000, 1000, 1000⟩⟩

/-- The same node with radius 100 and consistent bounds, for the
transform-scale scenario. -/
def exampleLight100 : PointLight :=
  { examplePointLight with
    _radius := 100
    _sphere := ⟨⟨0, 0, 0⟩, 100⟩
    _box := ⟨⟨-100, -100, -100⟩, ⟨100, 100, 100⟩⟩ }

/-- Identity transform with uniform scale 2. -/
def exampleTransformScale2 : Transform3D :=
  ⟨⟨0, 0, 0⟩, ⟨0, 0, 0, 1⟩, ⟨2, 2, 2⟩⟩

/-- The example node with radius 0: degenerate influence sphere, consistent
bounds. -/
def exampleLightZero : PointLight :=
  { examplePointLight with
    _radius := 0
    _sphere := ⟨⟨0, 0, 0⟩, 0⟩
    _box := ⟨⟨0, 0, 0⟩, ⟨0, 0, 0⟩⟩ }

/-- A picking ray from (0, 0, 2000) toward the origin. -/
def exampleRay : Ray :=
  ⟨⟨0, 0, 2000⟩, ⟨0, 0, -1⟩⟩

/-- C1: for every radius value r ≥ 0 and every world transform whose scale is
uniform with factor s > 0, GetScaledRadius returns r * s, where r is the
stored local radius returned by GetRadius. -/
theorem C1_scaledRadius_uniform_scale (l : PointLight) (s : ℚ)
    (hr : 0 ≤ GetRadius l) (hs : 0 < s)
    (hscale : l._transform.Scale = ⟨s, s, s⟩) :
    GetScaledRadius l = GetRadius l * s := by
  simp [GetScaledRadius, GetRadius, hscale, Float3.maxValue]

/-- C1 witness: the example node has radius 1000 ≥ 0 and uniform scale 1 > 0,
and its scaled radius is 1000 * 1. -/
theorem examplePointLight_boundsValid : BoundsValid examplePointLight := by
  constructor <;>
    norm_num [boundsOf, GetScaledRadius, GetPosition, examplePointLight,
      exampleTransform, Float3.maxValue, BoundingBox.fromSphere]

theorem C1_scaledRadius_uniform_scale_witness :
    GetScaledRadius examplePointLight = GetRadius examplePointLight * 1 :=
  C1_scaledRadius_uniform_scale examplePointLight 1
    (by norm_num [GetRadius, examplePointLight]) (by norm_num) rfl

/-- C2: SetRadius clamps its input to the nearest valid value (a negative
value is stored as 0, a non-negative value is stored unchanged), stores the
result as the radius, and recomputes the world bounds before returning, so
the bounds are never stale after SetRadius returns. -/
theorem C2_setRadius_clamps_and_updates_bounds (l : PointLight) (v : ℚ) :
    (SetRadius l v)._radius = max 0 v ∧
    (v < 0 → (SetRadius l v)._radius = 0) ∧
    (0 ≤ v → (SetRadius l v)._radius = v) ∧
    BoundsValid (SetRadius l v) := by
  refine ⟨rfl, fun h => ?_, fun h => ?_, rfl, rfl⟩
  · show max 0 v = 0
    exact max_eq_left h.le
  · show max 0 v = v
    exact max_eq_right h

/-- C2 witness: SetRadius (-5) on the example node stores 0 and leaves valid
bounds. -/
theorem C2_setRadius_clamps_witness :
    (SetRadius examplePointLight (-5))._radius = 0 ∧
    BoundsValid (SetRadius examplePointLight (-5)) :=
  ⟨(C2_setRadius_clamps_and_updates_bounds examplePointLight (-5)).2.1 (by norm_num),
   (C2_setRadius_clamps_and_updates_bounds examplePointLight (-5)).2.2.2⟩

/-- C3: when no IES profile is bound, ComputeBrightness with UseIESBrightness
true returns exactly the value it returns with UseIESBrightness false on the
otherwise identical state: the IES path is skipped silently. -/
theorem C3_ies_brightness_fallback (l : PointLight) (h : l.IESTexture = none) :
    ComputeBrightness { l with UseIESBrightness := true } =
      ComputeBrightness { l with UseIESBrightness := false } := by
  simp [ComputeBrightness, h]

/-- C3 witness: the example node has no IES profile bound, and both toggle
settings yield the same brightness. -/
theorem C3_ies_brightness_fallback_witness :
    ComputeBrightness { examplePointLight with UseIESBrightness := true } =
      ComputeBrightness { examplePointLight with UseIESBrightness := false } :=
  C3_ies_brightness_fallback examplePointLight rfl

/-- C4: under the documented invariants (base brightness ≥ 0, IES brightness
scale ≥ 0, profile brightness multiplier ≥ 0 when bound), ComputeBrightness
returns a value ≥ 0; as a definition over the state alone it is a pure
function with no side effects. -/
theorem C4_computeBrightness_nonneg (l : PointLight)
    (hb : 0 ≤ l.Brightness) (hs : 0 ≤ l.IESBrightnessScale)
    (hp : ∀ p, l.IESTexture = some p → 0 ≤ p.brightness) :
    0 ≤ ComputeBrightness l := by
  rcases h : l.IESTexture with _ | p
  · simpa [ComputeBrightness, h] using hb
  · by_cases hu : l.UseIESBrightness
    · simpa [ComputeBrightness, h, hu] using mul_nonneg (hp p h) hs
    · simpa [ComputeBrightness, h, hu] using hb

/-- C4 witness: the example node has brightness 10 ≥ 0, scale 1 ≥ 0 and no
profile bound, and its computed brightness is non-negative. -/
theorem C4_computeBrightness_nonneg_witness :
    0 ≤ ComputeBrightness examplePointLight :=
  C4_computeBrightness_nonneg examplePointLight
    (by norm_num [examplePointLight]) (by norm_num [examplePointLight])
    (fun p hp => Option.noConfusion hp)

/-- C5 counterexample: writing 20 to the public field FallOffExponent stores
20, not 16 — the class declares no clamping accessor for this field; the
[2, 16] range in PointLight.h is the editor attribute Limit(2, 16, 0.01f). -/
theorem C5_fallOffExponent_no_clamp_counterexample :
    (setFallOffExponent examplePointLight 20).FallOffExponent = 20 ∧
    (setFallOffExponent examplePointLight 20).FallOffExponent ≠ 16 := by
  constructor
  · rfl
  · decide

/-- C5 (amended): FallOffExponent is a plain public field; assigning a value
stores it unchanged (setting 20 stores 20). The valid range [2, 16] is
declared only as editor metadata (the Limit attribute), not enforced by the
class, which has no member function that sets this field. -/
theorem C5_fallOffExponent_stores_raw_value (l : PointLight) (v : ℚ) :
    (setFallOffExponent l v).FallOffExponent = v :=
  rfl

/-- C6: SetRadius is idempotent: calling it twice in succession with the same
value leaves the node (radius, bounds and all other state) exactly as one
call leaves it. -/
theorem C6_setRadius_idempotent (l : PointLight) (r : ℚ) :
    SetRadius (SetRadius l r) r = SetRadius l r :=
  rfl

/-- C7: deserializing the output of Serialize with no diff baseline onto a
fresh node reproduces every serialized field exactly, and — because the
single bounds recomputation after loading runs on the loaded transform and
radius — the resulting world bounds equal the original node's bounds
whenever the original satisfies the bounds invariant. -/
theorem C7_serialize_roundtrip (l f : PointLight) (h : BoundsValid l) :
    ((Deserialize f (Serialize l none))._radius = l._radius ∧
     (Deserialize f (Serialize l none)).SourceRadius = l.SourceRadius ∧
     (Deserialize f (Serialize l none)).SourceLength = l.SourceLength ∧
     (Deserialize f (Serialize l none)).UseInverseSquaredFalloff = l.UseInverseSquaredFalloff ∧
     (Deserialize f (Serialize l none)).FallOffExponent = l.FallOffExponent ∧
     (Deserialize f (Serialize l none)).IESTexture = l.IESTexture ∧
     (Deserialize f (Serialize l none)).UseIESBrightness = l.UseIESBrightness ∧
     (Deserialize f (Serialize l none)).IESBrightnessScale = l.IESBrightnessScale ∧
     (Deserialize f (Serialize l none)).Brightness = l.Brightness ∧
     (Deserialize f (Serialize l none)).Color = l.Color ∧
     (Deserialize f (Serialize l none)).CastShadows = l.CastShadows ∧
     (Deserialize f (Serialize l none))._transform = l._transform) ∧
    (Deserialize f (Serialize l none))._sphere = l._sphere ∧
    (Deserialize f (Serialize l none))._box = l._box :=
  ⟨⟨rfl, rfl, rfl, rfl, rfl, rfl, rfl, rfl, rfl, rfl, rfl, rfl⟩,
   h.1.symm, h.2.symm⟩

/-- C7 witness: round-tripping the example node (whose bounds are valid)
through serialization onto a different fresh node reproduces its radius and
its bounding sphere. -/
theorem C7_serialize_roundtrip_witness :
    (Deserialize exampleLight100 (Serialize examplePointLight none))._radius =
      examplePointLight._radius ∧
    (Deserialize exampleLight100 (Serialize examplePointLight none))._sphere =
      examplePointLight._sphere :=
  ⟨(C7_serialize_roundtrip examplePointLight exampleLight100 examplePointLight_boundsValid).1.1,
   (C7_serialize_roundtrip examplePointLight exampleLight100 examplePointLight_boundsValid).2.1⟩

/-- C8: serializing against a baseline equal to the current node writes no
field at all (the empty delta), and deserializing that delta onto a copy of
the baseline reproduces the current node state exactly (given the bounds
invariant that every public mutation maintains). -/
theorem C8_diff_serialization_empty_delta (l : PointLight) (h : BoundsValid l) :
    Serialize l (some l) = emptySerializedData ∧
    Deserialize l (Serialize l (some l)) = l := by
  have hs : Serialize l (some l) = emptySerializedData := by
    simp [Serialize, emptySerializedData, writeField]
  obtain ⟨h1, h2⟩ := h
  have hu : UpdateBounds l = l := by
    show ({ l with _sphere := boundsOf l,
                   _box := BoundingBox.fromSphere (boundsOf l) } : PointLight) = l
    rw [← h2, ← h1]
  refine ⟨hs, ?_⟩
  rw [hs]
  exact hu

/-- C8 witness: diff serialization of the example node against itself yields
the empty delta, and applying it reproduces the node. -/
theorem C8_diff_serialization_witness :
    Serialize examplePointLight (some examplePointLight) = emptySerializedData ∧
    Deserialize examplePointLight (Serialize examplePointLight (some examplePointLight)) =
      examplePointLight :=
  C8_diff_serialization_empty_delta examplePointLight examplePointLight_boundsValid

/-- C9: when the scaled radius is 0 (degenerate influence sphere),
IntersectsItself reports no intersection for every ray; and for a positive
scaled radius the test it runs is the ray-sphere test against the sphere
centered at the world position with radius GetScaledRadius — which equals the
cached bounding sphere whenever the bounds invariant holds. -/
theorem C9_intersects_degenerate_and_sphere (l : PointLight) (ray : Ray) :
    (GetScaledRadius l = 0 → IntersectsItself l ray = false) ∧
    (BoundsValid l → 0 < GetScaledRadius l →
      IntersectsItself l ray = rayIntersectsSphere ray l._sphere) := by
  constructor
  · intro h
    simp [IntersectsItself, h]
  · intro hb hr
    unfold IntersectsItself
    rw [if_neg (not_le.mpr hr), hb.1]

/-- C9 witness: the degenerate example node reports no hit for the example
ray, and the radius-1000 example node runs the sphere test against its cached
bounding sphere. -/
theorem C9_intersects_witness :
    IntersectsItself exampleLightZero exampleRay = false ∧
    IntersectsItself examplePointLight exampleRay =
      rayIntersectsSphere exampleRay examplePointLight._sphere :=
  ⟨(C9_intersects_degenerate_and_sphere exampleLightZero exampleRay).1
     (by norm_num [GetScaledRadius, exampleLightZero, examplePointLight,
       exampleTransform, Float3.maxValue]),
   (C9_intersects_degenerate_and_sphere examplePointLight exampleRay).2
     examplePointLight_boundsValid
     (by norm_num [GetScaledRadius, examplePointLight, exampleTransform,
       Float3.maxValue])⟩

/-- C10: after every public mutation (SetRadius, OnTransformChanged,
Deserialize) the stored world bounds equal the envelope of a sphere of radius
GetScaledRadius centered at the current world position; in particular,
changing the transform scale from 1 to 2 with fixed radius 100 makes the
bounds reflect GetScaledRadius = 200 with no explicit SetRadius call. -/
theorem C10_bounds_always_valid :
    (∀ (l : PointLight) (v : ℚ), BoundsValid (SetRadius l v)) ∧
    (∀ (l : PointLight) (t : Transform3D), BoundsValid (OnTransformChanged l t)) ∧
    (∀ (l : PointLight) (d : SerializedData), BoundsValid (Deserialize l d)) ∧
    GetScaledRadius (OnTransformChanged exampleLight100 exampleTransformScale2) = 200 ∧
    (OnTransformChanged exampleLight100 exampleTransformScale2)._sphere = ⟨⟨0, 0, 0⟩, 200⟩ :=
  ⟨fun _ _ => ⟨rfl, rfl⟩, fun _ _ => ⟨rfl, rfl⟩, fun _ _ => ⟨rfl, rfl⟩,
   by norm_num [OnTransformChanged, UpdateBounds, GetScaledRadius, boundsOf,
     GetPosition, exampleLight100, examplePointLight, exampleTransformScale2,
     Float3.maxValue],
   by norm_num [OnTransformChanged, UpdateBounds, GetScaledRadius, boundsOf,
     GetPosition, exampleLight100, examplePointLight, exampleTransformScale2,
     Float3.maxValue, BoundingBox.fromSphere]⟩

end Flax
